import Mathlib

/-!
Shallow embedding of the DevVoice voice-command pipeline: the intent
classifier (`routeIntent`), the whitelist command resolver
(`getCommandForIntent`), the confirmation gate, the session memory, the
output summarizer for git status, the execution-result construction, and
the planner-overlay response handling.  Filesystem and process effects are
abstracted into explicit context values (`RepoContext`, `SpawnOutcome`);
every JavaScript string operation used by the code (toLowerCase, trim,
includes, split, slice, substring, regex matching) is modelled explicitly
with its JavaScript semantics.
-/

namespace DevVoice

/-! ### JavaScript string and array primitives -/

/-- JavaScript `String.prototype.toLowerCase` (ASCII case mapping). -/
def toLowerJS (s : String) : String :=
  String.mk (s.data.map Char.toLower)

/-- Characters removed by JavaScript `String.prototype.trim`. -/
def jsTrimList (l : List Char) : List Char :=
  ((l.dropWhile Char.isWhitespace).reverse.dropWhile Char.isWhitespace).reverse

/-- JavaScript `String.prototype.trim`. -/
def jsTrim (s : String) : String :=
  String.mk (jsTrimList s.data)

/-- JavaScript `String.prototype.includes`: substring containment. -/
def containsStr (s pat : String) : Bool :=
  decide (pat.data <:+: s.data)

/-- JavaScript `String.prototype.split('\n')` on the character list. -/
def splitOnNl : List Char → List (List Char)
  | [] => [[]]
  | c :: rest =>
    let r := splitOnNl rest
    if c = Char.ofNat 10 then [] :: r
    else
      match r with
      | h :: t => (c :: h) :: t
      | [] => [[c]]

/-- JavaScript `String.prototype.split('\n')`. -/
def splitLines (s : String) : List String :=
  (splitOnNl s.data).map String.mk

/-- JavaScript array-index normalization used by `Array.prototype.slice`:
negative indices count from the end, and everything is clamped to
`[0, len]`. -/
def jsIdx (len : Nat) (i : Int) : Nat :=
  (max 0 (min (len : Int) (if i < 0 then (len : Int) + i else i))).toNat

/-- JavaScript `Array.prototype.slice(a, b)` (with both endpoints). -/
def jsSlice (l : List α) (a b : Int) : List α :=
  (l.take (jsIdx l.length b)).drop (jsIdx l.length a)

/-- JavaScript `Array.prototype.slice(a)` (no end argument). -/
def jsSliceFrom (l : List α) (a : Int) : List α :=
  l.drop (jsIdx l.length a)

/-- JavaScript `String.prototype.substring(a, b)` clamped character range. -/
def jsSubstring (s : String) (a b : Nat) : String :=
  String.mk ((s.data.take b).drop a)

/-- JavaScript `String.prototype.substring(a)` to the end of the string. -/
def jsSubstringFrom (s : String) (a : Nat) : String :=
  String.mk (s.data.drop a)

/-! ### Data model (src/intents/types.ts) -/

/-- The closed intent enumeration from `src/intents/types.ts`. -/
inductive Intent where
  | RUN_TESTS
  | GIT_STATUS
  | RUN_LINT
  | RUN_BUILD
  | CREATE_BRANCH
  | MAKE_COMMIT
  | EXPLAIN_FAILURE
  | DETAILS
  | REPEAT_LAST
  | HELP
  | EXIT
  | UNKNOWN
  deriving DecidableEq, Repr

/-- The string value of each member of the TypeScript string enum. -/
def Intent.value : Intent → String
  | .RUN_TESTS => "RUN_TESTS"
  | .GIT_STATUS => "GIT_STATUS"
  | .RUN_LINT => "RUN_LINT"
  | .RUN_BUILD => "RUN_BUILD"
  | .CREATE_BRANCH => "CREATE_BRANCH"
  | .MAKE_COMMIT => "MAKE_COMMIT"
  | .EXPLAIN_FAILURE => "EXPLAIN_FAILURE"
  | .DETAILS => "DETAILS"
  | .REPEAT_LAST => "REPEAT_LAST"
  | .HELP => "HELP"
  | .EXIT => "EXIT"
  | .UNKNOWN => "UNKNOWN"

/-- The `params: Record<string, string>` mapping restricted to the two keys
the code ever reads (`name`, `message`); `none` models an absent key. -/
structure Params where
  name : Option String := none
  message : Option String := none
  deriving DecidableEq, Repr

/-- Command template from `src/intents/whitelist.ts`. -/
structure CommandTemplate where
  command : String
  args : List String
  cwd : Option String := none
  deriving DecidableEq, Repr

/-! ### Whitelist command resolver (src/intents/whitelist.ts) -/

/-- Repository facts that `getCommandForIntent` observes through the
filesystem and the staged-change probe: which files exist, which
`package.json` scripts are (truthily) present, and whether
`git diff --cached --quiet` exits zero. -/
structure RepoContext where
  hasPackageJson : Bool
  hasPnpmLock : Bool
  hasNpmLock : Bool
  scriptTest : Bool
  scriptLint : Bool
  scriptBuild : Bool
  stagedProbeExitZero : Bool
  deriving DecidableEq, Repr

/-- Package-manager detection: `pnpm-lock.yaml` wins over
`package-lock.json`, and both require `package.json` to exist. -/
def packageManager (ctx : RepoContext) : Option String :=
  if ctx.hasPackageJson then
    if ctx.hasPnpmLock then some "pnpm"
    else if ctx.hasNpmLock then some "npm"
    else none
  else none

/-- A character admitted by the branch-name sanitizer character class
`[a-z0-9\-_]` with the `i` flag, i.e. `[A-Za-z0-9_-]`. -/
def isBranchChar (c : Char) : Bool :=
  (Char.ofNat 97 ≤ c && c ≤ Char.ofNat 122) ||
  (Char.ofNat 65 ≤ c && c ≤ Char.ofNat 90) ||
  (Char.ofNat 48 ≤ c && c ≤ Char.ofNat 57) ||
  c = Char.ofNat 45 || c = Char.ofNat 95

/-- Branch-name sanitization: `name.replace(/[^a-z0-9\-_]/gi, '')`. -/
def sanitizeBranch (s : String) : String :=
  String.mk (s.data.filter isBranchChar)

/-- Commit-message escaping: `message.replace(/"/g, '\\"')`. -/
def escapeQuotes (s : String) : String :=
  String.mk (s.data.flatMap (fun c => if c = Char.ofNat 34 then [Char.ofNat 92, Char.ofNat 34] else [c]))

/-- The staged-change probe `hasStagedChanges`: `git diff --cached --quiet`
exiting zero means no staged changes (returns `false`); a non-zero exit
(an `execSync` throw) means staged changes exist (returns `true`). -/
def hasStagedChanges (ctx : RepoContext) : Bool :=
  !ctx.stagedProbeExitZero

/-- The whitelist resolver `getCommandForIntent` from
`src/intents/whitelist.ts`, with the filesystem and the staged-change
probe abstracted into a `RepoContext`. -/
def getCommandForIntent (intent : Intent) (params : Option Params)
    (ctx : RepoContext) (repoPath : String) : Option CommandTemplate :=
  match intent with
  | .RUN_TESTS =>
    match packageManager ctx with
    | some pm =>
      if ctx.hasPackageJson && ctx.scriptTest then
        some { command := pm, args := ["test"], cwd := some repoPath }
      else none
    | none => none
  | .RUN_LINT =>
    match packageManager ctx with
    | some pm =>
      if ctx.hasPackageJson && ctx.scriptLint then
        some { command := pm
               args := if pm = "pnpm" then ["lint"] else ["run", "lint"]
               cwd := some repoPath }
      else none
    | none => none
  | .RUN_BUILD =>
    match packageManager ctx with
    | some pm =>
      if ctx.hasPackageJson && ctx.scriptBuild then
        some { command := pm
               args := if pm = "pnpm" then ["build"] else ["run", "build"]
               cwd := some repoPath }
      else none
    | none => none
  | .GIT_STATUS =>
    some { command := "git", args := ["status", "--porcelain"], cwd := some repoPath }
  | .CREATE_BRANCH =>
    match params with
    | some ps =>
      match ps.name with
      | some s =>
        if s = "" then none
        else
          let branchName := sanitizeBranch s
          if branchName = "" then none
          else some { command := "git", args := ["checkout", "-b", branchName], cwd := some repoPath }
      | none => none
    | none => none
  | .MAKE_COMMIT =>
    match params with
    | some ps =>
      match ps.message with
      | some s =>
        if s = "" then none
        else if !hasStagedChanges ctx then none
        else some { command := "git", args := ["commit", "-m", escapeQuotes s], cwd := some repoPath }
      | none => none
    | none => none
  | _ => none

/-! ### Execution collaborator (src/exec/runner.ts) -/

/-- Result record built by `executeCommand`. -/
structure ExecutionResult where
  stdout : String
  stderr : String
  exitCode : Int
  success : Bool
  deriving DecidableEq, Repr

/-- What the spawned child process does: either the `close` event fires
with the collected stream data and an exit code (`null` modelled as
`none`), or the `error` event fires with a spawn-level failure message
(e.g. executable not found). -/
inductive SpawnOutcome where
  | closed (stdout stderr : String) (code : Option Int)
  | errored (message : String)
  deriving DecidableEq, Repr

/-- The `executeCommand` result construction from `src/exec/runner.ts`:
on `close`, a `null` code becomes 1, both streams are trimmed, and
`success` is `exitCode === 0`; on `error`, the promise still resolves with
exit code 1 and the failure message in stderr. -/
def executeCommand (_template : CommandTemplate) (outcome : SpawnOutcome) : ExecutionResult :=
  match outcome with
  | .closed out err code =>
    let exitCode := code.getD 1
    { stdout := jsTrim out
      stderr := jsTrim err
      exitCode := exitCode
      success := exitCode == 0 }
  | .errored message =>
    { stdout := "", stderr := message, exitCode := 1, success := false }

/-! ### Session memory (src/session/memory.ts) -/

/-- The `lastFailure` record stored in session memory. -/
structure FailureRecord where
  intent : Intent
  stdout : String
  stderr : String
  exitCode : Int
  deriving DecidableEq, Repr

/-- The per-session memory record. -/
structure SessionMemory where
  lastAction : Option Intent
  lastStdout : String
  lastStderr : String
  lastExitCode : Int
  lastSummary : String
  lastFailure : Option FailureRecord
  deriving DecidableEq, Repr

/-- `createMemory`: the empty memory a session starts with. -/
def createMemory : SessionMemory :=
  { lastAction := none
    lastStdout := ""
    lastStderr := ""
    lastExitCode := 0
    lastSummary := ""
    lastFailure := none }

/-- `updateMemory`: overwrites the last-action fields unconditionally and
sets `lastFailure` only when the execution did not succeed (a success
leaves the previously recorded failure in place). -/
def updateMemory (memory : SessionMemory) (intent : Intent)
    (result : ExecutionResult) (summary : String) : SessionMemory :=
  { lastAction := some intent
    lastStdout := result.stdout
    lastStderr := result.stderr
    lastExitCode := result.exitCode
    lastSummary := summary
    lastFailure :=
      if result.success then memory.lastFailure
      else some { intent := intent
                  stdout := result.stdout
                  stderr := result.stderr
                  exitCode := result.exitCode } }

/-- `explainFailure`: renders the stored failure, or a fixed message when
none is recorded. -/
def explainFailure (memory : SessionMemory) : String :=
  match memory.lastFailure with
  | none => "No failure recorded. Last command succeeded."
  | some f =>
    let explanation := "Last failure was during " ++ f.intent.value ++ ". Exit code: " ++ toString f.exitCode ++ "."
    if f.stderr ≠ "" then
      let errorLines := jsSlice ((splitLines f.stderr).filter (fun l => jsTrim l ≠ "")) 0 3
      explanation ++ " Error: " ++ String.intercalate ". " errorLines
    else if f.stdout ≠ "" then
      let outputLines := jsSlice ((splitLines f.stdout).filter (fun l => jsTrim l ≠ "")) 0 3
      explanation ++ " Output: " ++ String.intercalate ". " outputLines
    else explanation

/-- `getDetails`: the fixed no-previous-action message on fresh memory,
otherwise the last 20 lines (`lines.slice(-20)`) of whichever of
stdout/stderr is non-empty, stdout preferred. -/
def getDetails (memory : SessionMemory) : String :=
  match memory.lastAction with
  | none => "No previous action to show details for."
  | some _ =>
    let output := if memory.lastStdout = "" then memory.lastStderr else memory.lastStdout
    if output = "" then "No output available from last action."
    else
      let lines := splitLines output
      String.intercalate "\n" (jsSliceFrom lines (-20))

/-! ### Git status summarizer (src/summarize/git.ts) -/

/-- The porcelain lines `summarizeGitStatus` iterates over: the split
stdout with (JS-truthily) blank lines filtered out. -/
def gitStatusLines (result : ExecutionResult) : List String :=
  (splitLines result.stdout).filter (fun l => jsTrim l ≠ "")

/-- Modified entries: status column (`substring(0, 2)`) does not contain
`??` and is non-blank after trimming; the filename is `substring(3)`
trimmed. -/
def gitModified (lines : List String) : List String :=
  (lines.filter (fun l =>
    !(containsStr (jsSubstring l 0 2) "??") && jsTrim (jsSubstring l 0 2) ≠ "")).map
    (fun l => jsTrim (jsSubstringFrom l 3))

/-- Untracked entries: status column contains `??`. -/
def gitUntracked (lines : List String) : List String :=
  (lines.filter (fun l => containsStr (jsSubstring l 0 2) "??")).map
    (fun l => jsTrim (jsSubstringFrom l 3))

/-- The example filenames listed in the summary:
`[...modified.slice(0, 5), ...untracked.slice(0, 5 - modified.length)]`
(note the possibly negative second slice bound). -/
def gitStatusFiles (result : ExecutionResult) : List String :=
  let modified := gitModified (gitStatusLines result)
  let untracked := gitUntracked (gitStatusLines result)
  jsSlice modified 0 5 ++ jsSlice untracked 0 ((5 : Int) - modified.length)

/-- `summarizeGitStatus` from `src/summarize/git.ts`. -/
def summarizeGitStatus (result : ExecutionResult) : String :=
  if !result.success then
    "Git status failed: " ++ (if result.stderr = "" then "Unknown error" else result.stderr)
  else
    let lines := gitStatusLines result
    if lines.length = 0 then "Working directory is clean. No changes."
    else
      let modified := gitModified lines
      let untracked := gitUntracked lines
      let modCount := modified.length
      let untrackedCount := untracked.length
      let s1 := "Found " ++ toString modCount ++ " modified file" ++ (if modCount ≠ 1 then "s" else "")
      let s2 :=
        if untrackedCount > 0 then
          s1 ++ " and " ++ toString untrackedCount ++ " untracked file" ++ (if untrackedCount ≠ 1 then "s" else "")
        else s1
      let s3 := s2 ++ "."
      let allFiles := gitStatusFiles result
      if allFiles.length > 0 then
        let s4 := s3 ++ " Files: " ++ String.intercalate ", " allFiles
        if modCount + untrackedCount > 5 then
          s4 ++ " and " ++ toString (modCount + untrackedCount - 5) ++ " more"
        else s4
      else s3

/-! ### Confirmation gate (src/modes/chat.ts lines 186-201, src/modes/listen.ts) -/

/-- The two-turn confirmation state machine of the spec. -/
inductive GateState where
  | awaitingConfirmation
  | confirmed
  | cancelled
  deriving DecidableEq, Repr

/-- The confirmation keywords the gate accepts. -/
def confirmKeywords : List String := ["confirm", "proceed", "yes"]

/-- The gate decision from the chat/listen confirmation step: the
follow-up utterance is lowercased, and the turn is cancelled exactly when
none of `confirm`/`proceed`/`yes` occurs in it. -/
def confirmationGate (confirmText : String) : GateState :=
  let normalized := toLowerJS confirmText
  if !(containsStr normalized "confirm") && !(containsStr normalized "proceed")
      && !(containsStr normalized "yes") then
    GateState.cancelled
  else GateState.confirmed

/-- What the confirmation step hands onward: the already-resolved template
reaches the execution step only when the gate confirms; a cancelled turn
drops it. -/
def confirmTurn (template : CommandTemplate) (confirmText : String) : Option CommandTemplate :=
  match confirmationGate confirmText with
  | .confirmed => some template
  | _ => none

/-! ### Intent classifier (src/intents/router.ts) -/

/-- Classifier output record. -/
structure IntentResult where
  intent : Intent
  params : Option Params := none
  confidence : ℚ
  deriving DecidableEq, Repr

/-- The `matches` helper: some keyword (lowercased) occurs in the text. -/
def matchesKw (text : String) (keywords : List String) : Bool :=
  keywords.any (fun k => containsStr text (toLowerJS k))

/-- Tries to consume a literal at the head of the character list. -/
def litMatch (pat : String) (s : List Char) : Option (List Char) :=
  if pat.data.isPrefixOf s then some (s.drop pat.data.length) else none

/-- A non-empty greedy run of branch-token characters (`[a-z0-9\-_]+`
under the `i` flag), as the capture group of the branch patterns. -/
def tokAt (r : List Char) : Option String :=
  let tok := r.takeWhile isBranchChar
  if tok = [] then none else some (String.mk tok)

/-- The optional group `(?:called |named )?` followed by the token
capture, with the regex backtracking order: `called `, then `named `,
then the empty alternative. -/
def altTok (rest : List Char) : Option String :=
  (match litMatch "called " rest with
   | some r => tokAt r
   | none => none).orElse (fun _ =>
  (match litMatch "named " rest with
   | some r => tokAt r
   | none => none).orElse (fun _ => tokAt rest))

/-- Leftmost-match scan: try the pattern at every start position from the
left, as JavaScript `String.prototype.match` does. -/
def scanFirst (f : List Char → Option α) : List Char → Option α
  | [] => f []
  | c :: rest => (f (c :: rest)).orElse (fun _ => scanFirst f rest)

/-- One attempt of `/create branch (?:called |named )?([a-z0-9\-_]+)/i`
at a fixed start position. -/
def branchCaptureAt (s : List Char) : Option String :=
  match litMatch "create branch " s with
  | some rest => altTok rest
  | none => none

/-- The router's `branchMatch` regex applied to the normalized text. -/
def branchMatch (text : String) : Option String :=
  scanFirst branchCaptureAt text.data

/-- One attempt of `/branch (?:called |named )?([a-z0-9\-_]+)/i` at a
fixed start position (first pattern of `extractBranchName`). -/
def branchCaptureAt2 (s : List Char) : Option String :=
  match litMatch "branch " s with
  | some rest => altTok rest
  | none => none

/-- Backtracking for the greedy `([a-z0-9\-_]+)` of the second
`extractBranchName` pattern: give characters back from the maximal run
until the literal ` branch` fits. -/
def greedyTokBack (s : List Char) : Nat → Option String
  | 0 => none
  | k + 1 =>
    if " branch".data.isPrefixOf (s.drop (k + 1)) then some (String.mk (s.take (k + 1)))
    else greedyTokBack s k

/-- One attempt of `/([a-z0-9\-_]+) branch/i` at a fixed start position
(second pattern of `extractBranchName`). -/
def tokenThenBranchAt (s : List Char) : Option String :=
  let run := s.takeWhile isBranchChar
  if run = [] then none else greedyTokBack s run.length

/-- `extractBranchName`: tries the two branch patterns in order. -/
def extractBranchName (text : String) : Option String :=
  (scanFirst branchCaptureAt2 text.data).orElse (fun _ =>
    scanFirst tokenThenBranchAt text.data)

/-- A quote character as excluded by the `[^"']` class. -/
def isQuoteChar (c : Char) : Bool :=
  c = Char.ofNat 34 || c = Char.ofNat 39

/-- The tail `["']?([^"']+)["']?` of the commit patterns at a fixed
position: the greedy optional quote is tried first, and the capture is a
non-empty run of non-quote characters. -/
def msgAt (r : List Char) : Option String :=
  (match r with
   | c :: rest =>
     if isQuoteChar c then
       let m := rest.takeWhile (fun d => !isQuoteChar d)
       if m = [] then none else some (String.mk m)
     else none
   | [] => none).orElse (fun _ =>
    let m := r.takeWhile (fun d => !isQuoteChar d)
    if m = [] then none else some (String.mk m))

/-- One attempt of
`/commit (?:with message |message )?["']?([^"']+)["']?/i` at a fixed
start position. -/
def commitCaptureAt (s : List Char) : Option String :=
  match litMatch "commit " s with
  | some rest =>
    (match litMatch "with message " rest with
     | some r => msgAt r
     | none => none).orElse (fun _ =>
    (match litMatch "message " rest with
     | some r => msgAt r
     | none => none).orElse (fun _ => msgAt rest))
  | none => none

/-- The router's `commitMatch` regex applied to the normalized text. -/
def commitMatch (text : String) : Option String :=
  scanFirst commitCaptureAt text.data

/-- One attempt of `/message ["']?([^"']+)["']?/i` at a fixed start
position (second pattern of `extractCommitMessage`). -/
def msgAfterMessageAt (s : List Char) : Option String :=
  match litMatch "message " s with
  | some r => msgAt r
  | none => none

/-- `extractCommitMessage`: the two commit patterns in order, with the
capture trimmed. -/
def extractCommitMessage (text : String) : Option String :=
  match scanFirst commitCaptureAt text.data with
  | some m => some (jsTrim m)
  | none =>
    match scanFirst msgAfterMessageAt text.data with
    | some m => some (jsTrim m)
    | none => none

/-- JavaScript truthiness of a nullable string: present and non-empty. -/
def strTruthy : Option String → Bool
  | none => false
  | some s => s ≠ ""

/-- The normalization `text.toLowerCase().trim()` at the top of
`routeIntent`. -/
def normalizeText (text : String) : String :=
  jsTrim (toLowerJS text)

/-- The ordered keyword classifier `routeIntent` from
`src/intents/router.ts`. -/
def routeIntent (text : String) : IntentResult :=
  let normalized := normalizeText text
  if matchesKw normalized ["exit", "quit", "stop", "bye", "goodbye"] then
    { intent := .EXIT, confidence := 1 }
  else if matchesKw normalized ["help", "what can you do", "commands", "options"] then
    { intent := .HELP, confidence := 1 }
  else if matchesKw normalized ["repeat", "say that again", "repeat last", "what did you say"] then
    { intent := .REPEAT_LAST, confidence := 1 }
  else if matchesKw normalized ["details", "more details", "show details", "tell me more", "explain more"] then
    { intent := .DETAILS, confidence := 1 }
  else if matchesKw normalized ["explain failure", "why did it fail", "what went wrong", "explain the error", "what failed"] then
    { intent := .EXPLAIN_FAILURE, confidence := 1 }
  else if matchesKw normalized ["run tests", "test", "tests", "run test suite", "execute tests"] then
    { intent := .RUN_TESTS, confidence := 9/10 }
  else if matchesKw normalized ["git status", "status", "git state", "what changed", "show changes", "check status"] then
    { intent := .GIT_STATUS, confidence := 9/10 }
  else if matchesKw normalized ["run lint", "lint", "check lint", "linter", "run linter"] then
    { intent := .RUN_LINT, confidence := 9/10 }
  else if matchesKw normalized ["run build", "build", "compile", "build project"] then
    { intent := .RUN_BUILD, confidence := 9/10 }
  else if (branchMatch normalized).isSome
      || matchesKw normalized ["create branch", "new branch", "make branch"] then
    let branchName := (branchMatch normalized).orElse (fun _ => extractBranchName normalized)
    if strTruthy branchName then
      { intent := .CREATE_BRANCH, params := some { name := branchName }, confidence := 8/10 }
    else { intent := .CREATE_BRANCH, confidence := 7/10 }
  else if (commitMatch normalized).isSome
      || matchesKw normalized ["commit", "make commit", "create commit"] then
    let message := (commitMatch normalized).orElse (fun _ => extractCommitMessage normalized)
    if strTruthy message then
      { intent := .MAKE_COMMIT, params := some { message := message }, confidence := 8/10 }
    else { intent := .MAKE_COMMIT, confidence := 7/10 }
  else { intent := .UNKNOWN, confidence := 0 }

/-- Whether any of `routeIntent`'s rules fires on the input: the
disjunction of every guard of the classifier chain.  `routeIntent` falls
through to UNKNOWN exactly when this is false. -/
def someRuleMatches (text : String) : Bool :=
  let normalized := normalizeText text
  matchesKw normalized ["exit", "quit", "stop", "bye", "goodbye"]
  || matchesKw normalized ["help", "what can you do", "commands", "options"]
  || matchesKw normalized ["repeat", "say that again", "repeat last", "what did you say"]
  || matchesKw normalized ["details", "more details", "show details", "tell me more", "explain more"]
  || matchesKw normalized ["explain failure", "why did it fail", "what went wrong", "explain the error", "what failed"]
  || matchesKw normalized ["run tests", "test", "tests", "run test suite", "execute tests"]
  || matchesKw normalized ["git status", "status", "git state", "what changed", "show changes", "check status"]
  || matchesKw normalized ["run lint", "lint", "check lint", "linter", "run linter"]
  || matchesKw normalized ["run build", "build", "compile", "build project"]
  || (branchMatch normalized).isSome
  || matchesKw normalized ["create branch", "new branch", "make branch"]
  || (commitMatch normalized).isSome
  || matchesKw normalized ["commit", "make commit", "create commit"]

/-! ### Planner overlay (src/agent/agent.ts, src/modes/chat.ts) -/

/-- Result record the agent returns to the modes. -/
structure AgentResult where
  intent : Intent
  params : Option Params := none
  planSteps : List String := []
  explanation : Option String := none
  confidence : ℚ
  clarifyingQuestion : Option String := none
  deriving DecidableEq, Repr

/-- The JSON object parsed out of the model response, with every field
the code reads; `none` models an absent (`undefined`) field. -/
structure ParsedResponse where
  intent : String := ""
  params : Option Params := none
  planSteps : Option (List String) := none
  explanation : Option String := none
  confidence : Option ℚ := none
  clarifyingQuestion : Option String := none
  deriving DecidableEq, Repr

/-- `validateIntent`: the string from the model must be one of the enum
values, anything else is coerced to UNKNOWN. -/
def validateIntent (intentString : String) : Intent :=
  match [Intent.RUN_TESTS, .GIT_STATUS, .RUN_LINT, .RUN_BUILD, .CREATE_BRANCH,
         .MAKE_COMMIT, .EXPLAIN_FAILURE, .DETAILS, .REPEAT_LAST, .HELP, .EXIT,
         .UNKNOWN].find? (fun i => i.value = intentString) with
  | some i => i
  | none => .UNKNOWN

/-- The confidence clamp
`Math.max(0, Math.min(1, parsed.confidence || 0.5))`; note that a missing
confidence and a confidence of exactly 0 both fall back to 0.5 through
the JavaScript `||`. -/
def clampConfidence (c : Option ℚ) : ℚ :=
  max 0 (min 1 (match c with
    | none => 1/2
    | some x => if x = 0 then 1/2 else x))

/-- The response validation and low-confidence handling at the end of
`openAIAgent` (src/agent/agent.ts lines 120-141): the low-confidence
early return with intent UNKNOWN and empty plan happens only when the
parsed response also carries a truthy `clarifyingQuestion`. -/
def agentProcessResponse (p : ParsedResponse) : AgentResult :=
  let intent := validateIntent p.intent
  let confidence := clampConfidence p.confidence
  if confidence < 6/10 && strTruthy p.clarifyingQuestion then
    { intent := .UNKNOWN
      params := none
      planSteps := []
      explanation := none
      confidence := confidence
      clarifyingQuestion := p.clarifyingQuestion }
  else
    { intent := intent
      params := some (p.params.getD {})
      planSteps := p.planSteps.getD []
      explanation := p.explanation
      confidence := confidence
      clarifyingQuestion := none }

/-- The chat-mode check on the agent result (src/modes/chat.ts lines
86-91): the turn ends with the clarifying question spoken back, before
resolution and execution, exactly when the confidence is below 0.6 and a
truthy clarifying question is present. -/
def chatTurnEndsWithQuestion (a : AgentResult) : Bool :=
  decide (a.confidence < 6/10) && strTruthy a.clarifyingQuestion

/-! ### Theorems -/

/-- C1: every CREATE_BRANCH resolution keeps only `[A-Za-z0-9_-]`
characters of the caller-supplied `name` in the branch-name argument of
the produced template, refuses (returns `none`) when the parameter is
absent or the sanitized result is empty, and on `name = "feature/auth!"`
produces the branch name `featureauth`. -/
theorem c1_branch_sanitization (ctx : RepoContext) (repoPath name : String) :
    (getCommandForIntent .CREATE_BRANCH (some { name := some name }) ctx repoPath =
      if sanitizeBranch name = "" then none
      else some { command := "git", args := ["checkout", "-b", sanitizeBranch name], cwd := some repoPath })
    ∧ (∀ t, getCommandForIntent .CREATE_BRANCH (some { name := some name }) ctx repoPath = some t →
        t.args = ["checkout", "-b", String.mk (name.data.filter isBranchChar)]
        ∧ ∀ c ∈ (String.mk (name.data.filter isBranchChar)).data, isBranchChar c = true)
    ∧ getCommandForIntent .CREATE_BRANCH none ctx repoPath = none
    ∧ getCommandForIntent .CREATE_BRANCH (some {}) ctx repoPath = none
    ∧ (getCommandForIntent .CREATE_BRANCH (some { name := some "feature/auth!" }) ctx repoPath).map
        CommandTemplate.args = some ["checkout", "-b", "featureauth"] := by
  have hmain : ∀ nm : String, getCommandForIntent .CREATE_BRANCH (some { name := some nm }) ctx repoPath =
      if sanitizeBranch nm = "" then none
      else some { command := "git", args := ["checkout", "-b", sanitizeBranch nm], cwd := some repoPath } := by
    intro nm
    by_cases h : nm = ""
    · subst h
      have : sanitizeBranch "" = "" := rfl
      simp [getCommandForIntent, this]
    · simp [getCommandForIntent, h]
  have hconc : (getCommandForIntent .CREATE_BRANCH (some { name := some "feature/auth!" }) ctx repoPath).map
      CommandTemplate.args = some ["checkout", "-b", "featureauth"] := by
    rw [hmain "feature/auth!"]
    have hsan : sanitizeBranch "feature/auth!" = "featureauth" := by decide
    rw [hsan]
    simp
  refine ⟨hmain name, ?_, rfl, rfl, hconc⟩
  intro t ht
  rw [hmain name] at ht
  by_cases hs : sanitizeBranch name = ""
  · rw [if_pos hs] at ht
    exact absurd ht (by simp)
  · rw [if_neg hs] at ht
    have hteq : t = { command := "git", args := ["checkout", "-b", sanitizeBranch name], cwd := some repoPath } :=
      (Option.some.injEq _ _ ▸ ht).symm
    constructor
    · rw [hteq]
      rfl
    · intro c hc
      exact List.of_mem_filter hc

/-- Witness for C1 at a concrete input: resolving CREATE_BRANCH with
name `feature/auth!` yields a template whose branch argument is
`featureauth`, every character of which is in `[A-Za-z0-9_-]`. -/
theorem c1_branch_sanitization_witness :
    CommandTemplate.args { command := "git", args := ["checkout", "-b", "featureauth"], cwd := some "/repo" } =
      ["checkout", "-b", String.mk (("feature/auth!").data.filter isBranchChar)]
    ∧ ∀ c ∈ (String.mk (("feature/auth!").data.filter isBranchChar)).data, isBranchChar c = true :=
  (c1_branch_sanitization ⟨true, true, false, true, true, true, true⟩ "/repo" "feature/auth!").2.1
    { command := "git", args := ["checkout", "-b", "featureauth"], cwd := some "/repo" } (by decide)

/-- C3: the resolver refuses MAKE_COMMIT whenever the staged-change probe
exits zero (no staged changes), for every message parameter; and a commit
template is produced only when the message parameter is (truthily)
present and the probe reports staged changes, in which case the template
is `git commit -m <escaped-message>`. -/
theorem c3_commit_requires_staged (ctx : RepoContext) (repoPath : String) (params : Option Params) :
    (ctx.stagedProbeExitZero = true →
      getCommandForIntent .MAKE_COMMIT params ctx repoPath = none)
    ∧ (∀ t, getCommandForIntent .MAKE_COMMIT params ctx repoPath = some t →
        hasStagedChanges ctx = true
        ∧ ∃ ps msg, params = some ps ∧ ps.message = some msg ∧ msg ≠ ""
            ∧ t = { command := "git", args := ["commit", "-m", escapeQuotes msg], cwd := some repoPath }) := by
  constructor
  · intro h
    match params with
    | none => rfl
    | some ps =>
      match hm : ps.message with
      | none => simp [getCommandForIntent, hm]
      | some s =>
        by_cases hs : s = ""
        · simp [getCommandForIntent, hm, hs]
        · simp [getCommandForIntent, hm, hs, hasStagedChanges, h]
  · intro t ht
    match params with
    | none => exact absurd ht (by simp [getCommandForIntent])
    | some ps =>
      match hm : ps.message with
      | none => exact absurd ht (by simp [getCommandForIntent, hm])
      | some s =>
        by_cases hs : s = ""
        · exact absurd ht (by simp [getCommandForIntent, hm, hs])
        · by_cases hstaged : hasStagedChanges ctx = true
          · refine ⟨hstaged, ps, s, rfl, hm, hs, ?_⟩
            have := ht
            simp [getCommandForIntent, hm, hs, hstaged] at this
            exact this.symm
          · exact absurd ht (by simp [getCommandForIntent, hm, hs, Bool.not_eq_true _ ▸ hstaged])

/-- Witness for C3 at concrete inputs: with the probe exiting zero the
resolver refuses even with a message present, and with staged changes a
template is produced whose shape the theorem then pins down. -/
theorem c3_commit_requires_staged_witness :
    getCommandForIntent .MAKE_COMMIT (some { message := some "fix bug" })
      ⟨true, true, false, true, true, true, true⟩ "/repo" = none
    ∧ (hasStagedChanges ⟨true, true, false, true, true, true, false⟩ = true
        ∧ ∃ ps msg, (some { message := some "fix bug" } : Option Params) = some ps
            ∧ ps.message = some msg ∧ msg ≠ ""
            ∧ ({ command := "git", args := ["commit", "-m", "fix bug"], cwd := some "/repo" } : CommandTemplate)
              = { command := "git", args := ["commit", "-m", escapeQuotes msg], cwd := some "/repo" }) :=
  ⟨(c3_commit_requires_staged ⟨true, true, false, true, true, true, true⟩ "/repo"
      (some { message := some "fix bug" })).1 rfl,
   (c3_commit_requires_staged ⟨true, true, false, true, true, true, false⟩ "/repo"
      (some { message := some "fix bug" })).2
      { command := "git", args := ["commit", "-m", "fix bug"], cwd := some "/repo" } (by decide)⟩

/-- C2: the confirmation gate reaches Confirmed exactly when the
lowercased follow-up utterance contains one of `confirm`, `proceed`,
`yes`; every other utterance reaches Cancelled, the gate never stays in
its initial state, and the resolved template is handed to execution
exactly on confirmation (a cancelled turn hands over nothing). -/
theorem c2_confirmation_gate (u : String) (t : CommandTemplate) :
    (confirmationGate u = .confirmed ↔
      ∃ kw ∈ confirmKeywords, containsStr (toLowerJS u) kw = true)
    ∧ (confirmationGate u = .cancelled ↔
      ∀ kw ∈ confirmKeywords, containsStr (toLowerJS u) kw = false)
    ∧ (confirmationGate u = .confirmed ∨ confirmationGate u = .cancelled)
    ∧ (confirmTurn t u = some t ↔ confirmationGate u = .confirmed)
    ∧ (confirmTurn t u = none ↔ confirmationGate u = .cancelled) := by
  have h1 : confirmationGate u = .confirmed ↔
      ∃ kw ∈ confirmKeywords, containsStr (toLowerJS u) kw = true := by
    unfold confirmationGate
    cases hc : containsStr (toLowerJS u) "confirm" <;>
      cases hp : containsStr (toLowerJS u) "proceed" <;>
        cases hy : containsStr (toLowerJS u) "yes" <;>
          simp [confirmKeywords, hc, hp, hy]
  have h2 : confirmationGate u = .cancelled ↔
      ∀ kw ∈ confirmKeywords, containsStr (toLowerJS u) kw = false := by
    unfold confirmationGate
    cases hc : containsStr (toLowerJS u) "confirm" <;>
      cases hp : containsStr (toLowerJS u) "proceed" <;>
        cases hy : containsStr (toLowerJS u) "yes" <;>
          simp [confirmKeywords, hc, hp, hy]
  have h3 : confirmationGate u = .confirmed ∨ confirmationGate u = .cancelled := by
    unfold confirmationGate
    cases hcond : (!containsStr (toLowerJS u) "confirm" && !containsStr (toLowerJS u) "proceed"
        && !containsStr (toLowerJS u) "yes") <;> simp [hcond]
  have h4 : confirmTurn t u = some t ↔ confirmationGate u = .confirmed := by
    unfold confirmTurn
    rcases h3 with h | h <;> simp [h]
  have h5 : confirmTurn t u = none ↔ confirmationGate u = .cancelled := by
    unfold confirmTurn
    rcases h3 with h | h <;> simp [h]
  exact ⟨h1, h2, h3, h4, h5⟩

/-- C4 (failing input): on porcelain output with six modified and two
untracked files, the summary's example-filename list has six entries (the
negative second bound of `untracked.slice(0, 5 - modified.length)` keeps
all but the last untracked file), so the summary lists more than the five
examples the code's own comment and the spec promise, and the appended
overflow count `3 more` miscounts the two files actually omitted. -/
theorem c4_file_list_overflow_bug :
    gitStatusFiles { stdout := " M a\n M b\n M c\n M d\n M e\n M f\n?? g\n?? h", stderr := "", exitCode := 0, success := true } =
      ["a", "b", "c", "d", "e", "g"]
    ∧ (gitStatusFiles { stdout := " M a\n M b\n M c\n M d\n M e\n M f\n?? g\n?? h", stderr := "", exitCode := 0, success := true }).length = 6
    ∧ summarizeGitStatus { stdout := " M a\n M b\n M c\n M d\n M e\n M f\n?? g\n?? h", stderr := "", exitCode := 0, success := true } =
      "Found 6 modified files and 2 untracked files. Files: a, b, c, d, e, g and 3 more"
    ∧ summarizeGitStatus { stdout := "", stderr := "", exitCode := 0, success := true } =
      "Working directory is clean. No changes."
    ∧ summarizeGitStatus { stdout := " M a.txt\n?? b.txt", stderr := "", exitCode := 0, success := true } =
      "Found 1 modified file and 1 untracked file. Files: a.txt, b.txt" := by
  decide

/-- C6: `updateMemory` overwrites the last-action fields unconditionally
and sets `lastFailure` if and only if the execution did not succeed;
hence after a failing update followed by a succeeding update of another
intent, `lastFailure` still holds the earlier failure while the
last-action fields hold only the most recent execution's values. -/
theorem c6_last_failure_sticky (m : SessionMemory) (i : Intent)
    (r : ExecutionResult) (s : String) :
    ((updateMemory m i r s).lastFailure =
      if r.success then m.lastFailure
      else some { intent := i, stdout := r.stdout, stderr := r.stderr, exitCode := r.exitCode })
    ∧ (updateMemory m i r s).lastAction = some i
    ∧ (updateMemory m i r s).lastStdout = r.stdout
    ∧ (updateMemory m i r s).lastStderr = r.stderr
    ∧ (updateMemory m i r s).lastExitCode = r.exitCode
    ∧ (updateMemory m i r s).lastSummary = s
    ∧ (∀ (i2 : Intent) (r2 : ExecutionResult) (s2 : String),
        r.success = false → r2.success = true →
        (updateMemory (updateMemory m i r s) i2 r2 s2).lastFailure =
          some { intent := i, stdout := r.stdout, stderr := r.stderr, exitCode := r.exitCode }
        ∧ (updateMemory (updateMemory m i r s) i2 r2 s2).lastAction = some i2
        ∧ (updateMemory (updateMemory m i r s) i2 r2 s2).lastStdout = r2.stdout
        ∧ (updateMemory (updateMemory m i r s) i2 r2 s2).lastStderr = r2.stderr
        ∧ (updateMemory (updateMemory m i r s) i2 r2 s2).lastExitCode = r2.exitCode
        ∧ (updateMemory (updateMemory m i r s) i2 r2 s2).lastSummary = s2) := by
  refine ⟨rfl, rfl, rfl, rfl, rfl, rfl, ?_⟩
  intro i2 r2 s2 h1 h2
  refine ⟨?_, rfl, rfl, rfl, rfl, rfl⟩
  simp [updateMemory, h1, h2]

/-- Witness for C6 at concrete inputs: a failing RUN_TESTS execution
followed by a succeeding GIT_STATUS execution leaves `lastFailure` on the
RUN_TESTS failure while the last-action fields carry the GIT_STATUS
values. -/
theorem c6_last_failure_sticky_witness :
    (updateMemory (updateMemory createMemory .RUN_TESTS ⟨"out1", "err1", 1, false⟩ "sum1")
        .GIT_STATUS ⟨"out2", "", 0, true⟩ "sum2").lastFailure =
      some { intent := .RUN_TESTS, stdout := "out1", stderr := "err1", exitCode := 1 }
    ∧ (updateMemory (updateMemory createMemory .RUN_TESTS ⟨"out1", "err1", 1, false⟩ "sum1")
        .GIT_STATUS ⟨"out2", "", 0, true⟩ "sum2").lastAction = some .GIT_STATUS
    ∧ (updateMemory (updateMemory createMemory .RUN_TESTS ⟨"out1", "err1", 1, false⟩ "sum1")
        .GIT_STATUS ⟨"out2", "", 0, true⟩ "sum2").lastStdout = "out2"
    ∧ (updateMemory (updateMemory createMemory .RUN_TESTS ⟨"out1", "err1", 1, false⟩ "sum1")
        .GIT_STATUS ⟨"out2", "", 0, true⟩ "sum2").lastStderr = ""
    ∧ (updateMemory (updateMemory createMemory .RUN_TESTS ⟨"out1", "err1", 1, false⟩ "sum1")
        .GIT_STATUS ⟨"out2", "", 0, true⟩ "sum2").lastExitCode = 0
    ∧ (updateMemory (updateMemory createMemory .RUN_TESTS ⟨"out1", "err1", 1, false⟩ "sum1")
        .GIT_STATUS ⟨"out2", "", 0, true⟩ "sum2").lastSummary = "sum2" :=
  (c6_last_failure_sticky createMemory .RUN_TESTS ⟨"out1", "err1", 1, false⟩ "sum1").2.2.2.2.2.2
    .GIT_STATUS ⟨"out2", "", 0, true⟩ "sum2" rfl rfl

/-- C8: every `ExecutionResult` built by `executeCommand` has
`success` true exactly when the exit code is zero, and a spawn-level
failure resolves (rather than throws) to a result with success `false`,
exit code 1, empty stdout, and the failure message in stderr. -/
theorem c8_success_iff_exit_zero (t : CommandTemplate) (o : SpawnOutcome) :
    ((executeCommand t o).success = true ↔ (executeCommand t o).exitCode = 0)
    ∧ (∀ msg, executeCommand t (.errored msg) =
        { stdout := "", stderr := msg, exitCode := 1, success := false })
    ∧ (∀ msg, (executeCommand t (.errored msg)).success = false
        ∧ (executeCommand t (.errored msg)).exitCode ≠ 0
        ∧ (executeCommand t (.errored msg)).stderr = msg) := by
  refine ⟨?_, fun _ => rfl, fun _ => ⟨rfl, by simp [executeCommand], rfl⟩⟩
  match o with
  | .errored msg => simp [executeCommand]
  | .closed out err code =>
    simp only [executeCommand]
    constructor
    · intro h
      simpa using h
    · intro h
      simp [h]

/-- JavaScript `slice(-20)` keeps exactly the last 20 elements: it equals
dropping all but the final 20. -/
theorem jsSliceFrom_neg_twenty (l : List α) : jsSliceFrom l (-20) = l.drop (l.length - 20) := by
  have h : jsIdx l.length (-20) = l.length - 20 := by
    unfold jsIdx
    rw [if_pos (by norm_num)]
    omega
  simp [jsSliceFrom, h]

/-- The memory state with 25 lines of stdout used by C7. -/
def mem25 : SessionMemory :=
  { createMemory with
    lastAction := some .RUN_TESTS
    lastStdout := String.intercalate "\n" ((List.range 25).map (fun i => "line " ++ toString (i + 1))) }

/-- C7: `getDetails` on fresh memory returns the fixed no-previous-action
message; when an action has run it returns the last 20 lines of stdout if
stdout is non-empty, otherwise of stderr; and on a memory holding 25
lines of stdout it returns exactly lines 6 through 25. -/
theorem c7_details_last_twenty :
    getDetails createMemory = "No previous action to show details for."
    ∧ (∀ m : SessionMemory, m.lastAction.isSome = true → m.lastStdout ≠ "" →
        getDetails m = String.intercalate "\n"
          ((splitLines m.lastStdout).drop ((splitLines m.lastStdout).length - 20)))
    ∧ (∀ m : SessionMemory, m.lastAction.isSome = true → m.lastStdout = "" → m.lastStderr ≠ "" →
        getDetails m = String.intercalate "\n"
          ((splitLines m.lastStderr).drop ((splitLines m.lastStderr).length - 20)))
    ∧ getDetails mem25 = String.intercalate "\n"
        (((List.range 25).map (fun i => "line " ++ toString (i + 1))).drop 5) := by
  refine ⟨rfl, ?_, ?_, by decide⟩
  · intro m h1 h2
    cases ha : m.lastAction with
    | none => rw [ha] at h1; exact absurd h1 (by simp)
    | some i =>
      unfold getDetails
      rw [ha]
      simp only [if_neg h2]
      rw [jsSliceFrom_neg_twenty]
  · intro m h1 h2 h3
    cases ha : m.lastAction with
    | none => rw [ha] at h1; exact absurd h1 (by simp)
    | some i =>
      unfold getDetails
      rw [ha]
      simp only [h2, if_pos rfl, if_true, ite_true]
      rw [if_neg h3, jsSliceFrom_neg_twenty]

/-- Witness for C7 at a concrete input: on the 25-line memory the
general stdout clause of the theorem gives the last 20 lines. -/
theorem c7_details_last_twenty_witness :
    getDetails mem25 = String.intercalate "\n"
      ((splitLines mem25.lastStdout).drop ((splitLines mem25.lastStdout).length - 20)) :=
  c7_details_last_twenty.2.1 mem25 (by decide) (by decide)

/-- A list of whitespace characters trims to the empty list. -/
theorem jsTrimList_all_whitespace (l : List Char) (h : l.all Char.isWhitespace = true) :
    jsTrimList l = [] := by
  unfold jsTrimList
  have h1 : l.dropWhile Char.isWhitespace = [] := by
    rw [List.dropWhile_eq_nil_iff]
    intro x hx
    exact List.all_eq_true.mp h x hx
  rw [h1]
  rfl

/-- C10: `executeCommand` trims the collected stdout and stderr before
building the result, so a process whose whole output is whitespace (for
example a lone newline) is reported with empty stdout and stderr; in
particular a successful git-status execution with whitespace-only output
hits the clean-working-directory branch of `summarizeGitStatus`, and a
memory updated with such a result hits the no-output branch of
`getDetails`. -/
theorem c10_runner_trims_output (t : CommandTemplate) (out err : String) (code : Option Int) :
    (executeCommand t (.closed out err code)).stdout = jsTrim out
    ∧ (executeCommand t (.closed out err code)).stderr = jsTrim err
    ∧ (out.data.all Char.isWhitespace = true →
        (executeCommand t (.closed out err code)).stdout = "")
    ∧ (err.data.all Char.isWhitespace = true →
        (executeCommand t (.closed out err code)).stderr = "")
    ∧ (out.data.all Char.isWhitespace = true →
        summarizeGitStatus (executeCommand t (.closed out err (some 0))) =
          "Working directory is clean. No changes.")
    ∧ (∀ (i : Intent) (s : String), out.data.all Char.isWhitespace = true →
        err.data.all Char.isWhitespace = true →
        getDetails (updateMemory createMemory i (executeCommand t (.closed out err code)) s) =
          "No output available from last action.") := by
  have hout : out.data.all Char.isWhitespace = true →
      (executeCommand t (.closed out err code)).stdout = "" := by
    intro h
    show jsTrim out = ""
    unfold jsTrim
    rw [jsTrimList_all_whitespace out.data h]
  have herr : err.data.all Char.isWhitespace = true →
      (executeCommand t (.closed out err code)).stderr = "" := by
    intro h
    show jsTrim err = ""
    unfold jsTrim
    rw [jsTrimList_all_whitespace err.data h]
  refine ⟨rfl, rfl, hout, herr, ?_, ?_⟩
  · intro h
    have hstdout : jsTrim out = "" := by
      unfold jsTrim
      rw [jsTrimList_all_whitespace out.data h]
    have hres : executeCommand t (.closed out err (some 0)) =
        { stdout := "", stderr := jsTrim err, exitCode := 0, success := true } := by
      simp [executeCommand, hstdout]
    rw [hres]
    have hlines : gitStatusLines { stdout := "", stderr := jsTrim err, exitCode := 0, success := true } = [] := rfl
    unfold summarizeGitStatus
    rw [hlines]
    rfl
  · intro i s h1 h2
    have hres : (executeCommand t (.closed out err code)).stdout = "" := hout h1
    have hres2 : (executeCommand t (.closed out err code)).stderr = "" := herr h2
    unfold getDetails updateMemory
    simp [hres, hres2]

/-- C5: the classifier's confidence contract — session-control intents
(EXIT, HELP, REPEAT_LAST, DETAILS, EXPLAIN_FAILURE) are returned with
confidence 1, action intents (RUN_TESTS, GIT_STATUS, RUN_LINT,
RUN_BUILD) with 0.9, the parameterized intents (CREATE_BRANCH,
MAKE_COMMIT) with 0.8 when a parameter was extracted and 0.7 otherwise,
and the classifier returns UNKNOWN exactly when none of its rules
matches, with confidence 0. -/
theorem c5_classifier_confidences (text : String) :
    ((routeIntent text).intent ∈ [Intent.EXIT, .HELP, .REPEAT_LAST, .DETAILS, .EXPLAIN_FAILURE] →
      (routeIntent text).confidence = 1)
    ∧ ((routeIntent text).intent ∈ [Intent.RUN_TESTS, .GIT_STATUS, .RUN_LINT, .RUN_BUILD] →
      (routeIntent text).confidence = 9/10)
    ∧ ((routeIntent text).intent ∈ [Intent.CREATE_BRANCH, .MAKE_COMMIT] →
      (routeIntent text).confidence = if (routeIntent text).params.isSome then 8/10 else 7/10)
    ∧ ((routeIntent text).intent = .UNKNOWN ↔ someRuleMatches text = false)
    ∧ ((routeIntent text).intent = .UNKNOWN → (routeIntent text).confidence = 0) := by
  have hQ : ((routeIntent text).intent ∈ [Intent.EXIT, .HELP, .REPEAT_LAST, .DETAILS, .EXPLAIN_FAILURE] →
      (routeIntent text).confidence = 1)
    ∧ ((routeIntent text).intent ∈ [Intent.RUN_TESTS, .GIT_STATUS, .RUN_LINT, .RUN_BUILD] →
      (routeIntent text).confidence = 9/10)
    ∧ ((routeIntent text).intent ∈ [Intent.CREATE_BRANCH, .MAKE_COMMIT] →
      (routeIntent text).confidence = if (routeIntent text).params.isSome then 8/10 else 7/10)
    ∧ ((routeIntent text).intent = .UNKNOWN → (routeIntent text).confidence = 0) := by
    simp only [routeIntent]
    by_cases hc1 : matchesKw (normalizeText text) ["exit", "quit", "stop", "bye", "goodbye"] = true
    · rw [if_pos hc1]
      exact ⟨fun _ => rfl, fun hx => absurd hx (by simp), fun hx => absurd hx (by simp), fun hx => absurd hx (by simp)⟩
    rw [if_neg hc1]
    by_cases hc2 : matchesKw (normalizeText text) ["help", "what can you do", "commands", "options"] = true
    · rw [if_pos hc2]
      exact ⟨fun _ => rfl, fun hx => absurd hx (by simp), fun hx => absurd hx (by simp), fun hx => absurd hx (by simp)⟩
    rw [if_neg hc2]
    by_cases hc3 : matchesKw (normalizeText text) ["repeat", "say that again", "repeat last", "what did you say"] = true
    · rw [if_pos hc3]
      exact ⟨fun _ => rfl, fun hx => absurd hx (by simp), fun hx => absurd hx (by simp), fun hx => absurd hx (by simp)⟩
    rw [if_neg hc3]
    by_cases hc4 : matchesKw (normalizeText text) ["details", "more details", "show details", "tell me more", "explain more"] = true
    · rw [if_pos hc4]
      exact ⟨fun _ => rfl, fun hx => absurd hx (by simp), fun hx => absurd hx (by simp), fun hx => absurd hx (by simp)⟩
    rw [if_neg hc4]
    by_cases hc5 : matchesKw (normalizeText text) ["explain failure", "why did it fail", "what went wrong", "explain the error", "what failed"] = true
    · rw [if_pos hc5]
      exact ⟨fun _ => rfl, fun hx => absurd hx (by simp), fun hx => absurd hx (by simp), fun hx => absurd hx (by simp)⟩
    rw [if_neg hc5]
    by_cases hc6 : matchesKw (normalizeText text) ["run tests", "test", "tests", "run test suite", "execute tests"] = true
    · rw [if_pos hc6]
      exact ⟨fun hx => absurd hx (by simp), fun _ => rfl, fun hx => absurd hx (by simp), fun hx => absurd hx (by simp)⟩
    rw [if_neg hc6]
    by_cases hc7 : matchesKw (normalizeText text) ["git status", "status", "git state", "what changed", "show changes", "check status"] = true
    · rw [if_pos hc7]
      exact ⟨fun hx => absurd hx (by simp), fun _ => rfl, fun hx => absurd hx (by simp), fun hx => absurd hx (by simp)⟩
    rw [if_neg hc7]
    by_cases hc8 : matchesKw (normalizeText text) ["run lint", "lint", "check lint", "linter", "run linter"] = true
    · rw [if_pos hc8]
      exact ⟨fun hx => absurd hx (by simp), fun _ => rfl, fun hx => absurd hx (by simp), fun hx => absurd hx (by simp)⟩
    rw [if_neg hc8]
    by_cases hc9 : matchesKw (normalizeText text) ["run build", "build", "compile", "build project"] = true
    · rw [if_pos hc9]
      exact ⟨fun hx => absurd hx (by simp), fun _ => rfl, fun hx => absurd hx (by simp), fun hx => absurd hx (by simp)⟩
    rw [if_neg hc9]
    by_cases hc10 : ((branchMatch (normalizeText text)).isSome
        || matchesKw (normalizeText text) ["create branch", "new branch", "make branch"]) = true
    · rw [if_pos hc10]
      by_cases hb : strTruthy ((branchMatch (normalizeText text)).orElse
          (fun x => extractBranchName (normalizeText text))) = true
      · rw [if_pos hb]
        exact ⟨fun hx => absurd hx (by simp), fun hx => absurd hx (by simp), fun _ => rfl, fun hx => absurd hx (by simp)⟩
      · rw [if_neg hb]
        exact ⟨fun hx => absurd hx (by simp), fun hx => absurd hx (by simp), fun _ => rfl, fun hx => absurd hx (by simp)⟩
    rw [if_neg hc10]
    by_cases hc11 : ((commitMatch (normalizeText text)).isSome
        || matchesKw (normalizeText text) ["commit", "make commit", "create commit"]) = true
    · rw [if_pos hc11]
      by_cases hm : strTruthy ((commitMatch (normalizeText text)).orElse
          (fun x => extractCommitMessage (normalizeText text))) = true
      · rw [if_pos hm]
        exact ⟨fun hx => absurd hx (by simp), fun hx => absurd hx (by simp), fun _ => rfl, fun hx => absurd hx (by simp)⟩
      · rw [if_neg hm]
        exact ⟨fun hx => absurd hx (by simp), fun hx => absurd hx (by simp), fun _ => rfl, fun hx => absurd hx (by simp)⟩
    rw [if_neg hc11]
    exact ⟨fun hx => absurd hx (by simp), fun hx => absurd hx (by simp), fun hx => absurd hx (by simp), fun _ => rfl⟩
  have hD : (routeIntent text).intent = .UNKNOWN ↔ someRuleMatches text = false := by
    simp only [routeIntent, someRuleMatches]
    by_cases hc1 : matchesKw (normalizeText text) ["exit", "quit", "stop", "bye", "goodbye"] = true
    · rw [if_pos hc1]
      exact iff_of_false (by simp) (fun hf => by simp [hc1] at hf)
    rw [if_neg hc1]
    by_cases hc2 : matchesKw (normalizeText text) ["help", "what can you do", "commands", "options"] = true
    · rw [if_pos hc2]
      exact iff_of_false (by simp) (fun hf => by simp [hc2] at hf)
    rw [if_neg hc2]
    by_cases hc3 : matchesKw (normalizeText text) ["repeat", "say that again", "repeat last", "what did you say"] = true
    · rw [if_pos hc3]
      exact iff_of_false (by simp) (fun hf => by simp [hc3] at hf)
    rw [if_neg hc3]
    by_cases hc4 : matchesKw (normalizeText text) ["details", "more details", "show details", "tell me more", "explain more"] = true
    · rw [if_pos hc4]
      exact iff_of_false (by simp) (fun hf => by simp [hc4] at hf)
    rw [if_neg hc4]
    by_cases hc5 : matchesKw (normalizeText text) ["explain failure", "why did it fail", "what went wrong", "explain the error", "what failed"] = true
    · rw [if_pos hc5]
      exact iff_of_false (by simp) (fun hf => by simp [hc5] at hf)
    rw [if_neg hc5]
    by_cases hc6 : matchesKw (normalizeText text) ["run tests", "test", "tests", "run test suite", "execute tests"] = true
    · rw [if_pos hc6]
      exact iff_of_false (by simp) (fun hf => by simp [hc6] at hf)
    rw [if_neg hc6]
    by_cases hc7 : matchesKw (normalizeText text) ["git status", "status", "git state", "what changed", "show changes", "check status"] = true
    · rw [if_pos hc7]
      exact iff_of_false (by simp) (fun hf => by simp [hc7] at hf)
    rw [if_neg hc7]
    by_cases hc8 : matchesKw (normalizeText text) ["run lint", "lint", "check lint", "linter", "run linter"] = true
    · rw [if_pos hc8]
      exact iff_of_false (by simp) (fun hf => by simp [hc8] at hf)
    rw [if_neg hc8]
    by_cases hc9 : matchesKw (normalizeText text) ["run build", "build", "compile", "build project"] = true
    · rw [if_pos hc9]
      exact iff_of_false (by simp) (fun hf => by simp [hc9] at hf)
    rw [if_neg hc9]
    by_cases hc10 : ((branchMatch (normalizeText text)).isSome
        || matchesKw (normalizeText text) ["create branch", "new branch", "make branch"]) = true
    · rw [if_pos hc10]
      by_cases hb : strTruthy ((branchMatch (normalizeText text)).orElse
          (fun x => extractBranchName (normalizeText text))) = true
      · rw [if_pos hb]
        exact iff_of_false (by simp)
          (fun hf => by rcases Bool.or_eq_true_iff.mp hc10 with h | h <;> simp [h] at hf)
      · rw [if_neg hb]
        exact iff_of_false (by simp)
          (fun hf => by rcases Bool.or_eq_true_iff.mp hc10 with h | h <;> simp [h] at hf)
    rw [if_neg hc10]
    by_cases hc11 : ((commitMatch (normalizeText text)).isSome
        || matchesKw (normalizeText text) ["commit", "make commit", "create commit"]) = true
    · rw [if_pos hc11]
      by_cases hm : strTruthy ((commitMatch (normalizeText text)).orElse
          (fun x => extractCommitMessage (normalizeText text))) = true
      · rw [if_pos hm]
        exact iff_of_false (by simp)
          (fun hf => by rcases Bool.or_eq_true_iff.mp hc11 with h | h <;> simp [h] at hf)
      · rw [if_neg hm]
        exact iff_of_false (by simp)
          (fun hf => by rcases Bool.or_eq_true_iff.mp hc11 with h | h <;> simp [h] at hf)
    rw [if_neg hc11]
    simp only [Bool.not_eq_true] at hc1 hc2 hc3 hc4 hc5 hc6 hc7 hc8 hc9 hc10 hc11
    obtain ⟨h10a, h10b⟩ := Bool.or_eq_false_iff.mp hc10
    obtain ⟨h11a, h11b⟩ := Bool.or_eq_false_iff.mp hc11
    exact iff_of_true rfl (by
      simp [hc1, hc2, hc3, hc4, hc5, hc6, hc7, hc8, hc9, h10a, h10b, h11a, h11b])
  exact ⟨hQ.1, hQ.2.1, hQ.2.2.1, hD, hQ.2.2.2⟩

/-- Witness for C5 at concrete inputs covering each confidence tier. -/
theorem c5_classifier_confidences_witness :
    (routeIntent "exit").confidence = 1
    ∧ (routeIntent "run tests").confidence = 9/10
    ∧ (routeIntent "create branch called foo").confidence =
        (if (routeIntent "create branch called foo").params.isSome then 8/10 else 7/10)
    ∧ (routeIntent "make commit").confidence =
        (if (routeIntent "make commit").params.isSome then 8/10 else 7/10)
    ∧ (routeIntent "xyzzy").confidence = 0 :=
  ⟨(c5_classifier_confidences "exit").1 (by decide),
   (c5_classifier_confidences "run tests").2.1 (by decide),
   (c5_classifier_confidences "create branch called foo").2.2.1 (by decide),
   (c5_classifier_confidences "make commit").2.2.1 (by decide),
   (c5_classifier_confidences "xyzzy").2.2.2.2 (by decide)⟩

/-- Witness for C10 at a concrete input: a git-status run whose entire
output is a lone newline is reported with empty stdout, summarized as a
clean working directory, and remembered with no output to show. -/
theorem c10_runner_trims_output_witness :
    (executeCommand { command := "git", args := ["status", "--porcelain"], cwd := some "/repo" }
        (.closed "\n" "\n" (some 0))).stdout = ""
    ∧ summarizeGitStatus
        (executeCommand { command := "git", args := ["status", "--porcelain"], cwd := some "/repo" }
          (.closed "\n" "\n" (some 0))) = "Working directory is clean. No changes."
    ∧ getDetails (updateMemory createMemory .GIT_STATUS
        (executeCommand { command := "git", args := ["status", "--porcelain"], cwd := some "/repo" }
          (.closed "\n" "\n" (some 0))) "summary") = "No output available from last action." :=
  ⟨(c10_runner_trims_output
      { command := "git", args := ["status", "--porcelain"], cwd := some "/repo" }
      "\n" "\n" (some 0)).2.2.1 (by decide),
   (c10_runner_trims_output
      { command := "git", args := ["status", "--porcelain"], cwd := some "/repo" }
      "\n" "\n" (some 0)).2.2.2.2.1 (by decide),
   (c10_runner_trims_output
      { command := "git", args := ["status", "--porcelain"], cwd := some "/repo" }
      "\n" "\n" (some 0)).2.2.2.2.2 .GIT_STATUS "summary" (by decide) (by decide)⟩

/-- The clamp of a parsed confidence of 0.4 is 0.4. -/
theorem clampConfidence_two_fifths : clampConfidence (some (2/5)) = 2/5 := by
  show max 0 (min 1 (if (2/5 : ℚ) = 0 then 1/2 else 2/5)) = 2/5
  rw [if_neg (by norm_num)]
  rw [min_eq_right (by norm_num), max_eq_right (by norm_num)]

/-- C9 (counterexample): a parsed planner response with confidence 0.4
and no clarifying question — the clamped confidence is below the 0.6
threshold, yet the overlay returns the executable GIT_STATUS plan (not
UNKNOWN), carries no clarifying question, and the chat turn does not end
early: it continues into resolution and execution. -/
theorem c9_low_confidence_executes_counterexample :
    clampConfidence (some (2/5)) < 6/10
    ∧ agentProcessResponse { intent := "GIT_STATUS", confidence := some (2/5) } =
        { intent := .GIT_STATUS, params := some {}, planSteps := [], explanation := none,
          confidence := 2/5, clarifyingQuestion := none }
    ∧ (agentProcessResponse { intent := "GIT_STATUS", confidence := some (2/5) }).intent ≠ .UNKNOWN
    ∧ (agentProcessResponse { intent := "GIT_STATUS", confidence := some (2/5) }).clarifyingQuestion = none
    ∧ chatTurnEndsWithQuestion
        (agentProcessResponse { intent := "GIT_STATUS", confidence := some (2/5) }) = false := by
  have hval : validateIntent "GIT_STATUS" = .GIT_STATUS := by decide
  have hres : agentProcessResponse { intent := "GIT_STATUS", confidence := some (2/5) } =
      { intent := .GIT_STATUS, params := some {}, planSteps := [], explanation := none,
        confidence := 2/5, clarifyingQuestion := none } := by
    unfold agentProcessResponse
    rw [if_neg (by simp [strTruthy])]
    rw [hval, clampConfidence_two_fifths]
    rfl
  refine ⟨by rw [clampConfidence_two_fifths]; norm_num, hres, ?_, ?_, ?_⟩
  · rw [hres]
    simp
  · rw [hres]
  · rw [hres]
    simp [chatTurnEndsWithQuestion, strTruthy]

/-- C9 (amended): for every planner response whose clamped confidence is
below 0.6 and which carries a (truthy) clarifying question, the overlay
returns no executable plan — the intent is coerced to UNKNOWN with an
empty step list and the clarifying question attached — and the chat turn
ends with the question spoken back, before resolution or execution. -/
theorem c9_low_confidence_question_gate (p : ParsedResponse)
    (hconf : clampConfidence p.confidence < 6/10)
    (hq : strTruthy p.clarifyingQuestion = true) :
    agentProcessResponse p =
      { intent := .UNKNOWN, params := none, planSteps := [], explanation := none,
        confidence := clampConfidence p.confidence, clarifyingQuestion := p.clarifyingQuestion }
    ∧ chatTurnEndsWithQuestion (agentProcessResponse p) = true := by
  have hcond : (decide (clampConfidence p.confidence < 6/10) && strTruthy p.clarifyingQuestion) = true := by
    rw [hq, decide_eq_true hconf]
    rfl
  have hres : agentProcessResponse p =
      { intent := .UNKNOWN, params := none, planSteps := [], explanation := none,
        confidence := clampConfidence p.confidence, clarifyingQuestion := p.clarifyingQuestion } := by
    unfold agentProcessResponse
    rw [if_pos hcond]
  refine ⟨hres, ?_⟩
  rw [hres]
  unfold chatTurnEndsWithQuestion
  rw [decide_eq_true hconf, hq]
  rfl

/-- Witness for C9 at a concrete input: a response with confidence 0.4
and the clarifying question present is turned into an UNKNOWN
non-executable result and the turn ends with the question. -/
theorem c9_low_confidence_question_gate_witness :
    agentProcessResponse
        { intent := "GIT_STATUS", confidence := some (2/5),
          clarifyingQuestion := some "Which repository do you mean?" } =
      { intent := .UNKNOWN, params := none, planSteps := [], explanation := none,
        confidence := clampConfidence (some (2/5)),
        clarifyingQuestion := some "Which repository do you mean?" }
    ∧ chatTurnEndsWithQuestion
        (agentProcessResponse
          { intent := "GIT_STATUS", confidence := some (2/5),
            clarifyingQuestion := some "Which repository do you mean?" }) = true :=
  c9_low_confidence_question_gate
    { intent := "GIT_STATUS", confidence := some (2/5),
      clarifyingQuestion := some "Which repository do you mean?" }
    (by rw [clampConfidence_two_fifths]; norm_num)
    (by decide)

end DevVoice
